import Mathlib

/-!
# HelloGL2Cubed: a verification development of `gl_code.cpp`

The native renderer of the demo (`app/src/main/cpp/gl_code.cpp`) is embedded
function by function.  `GLfloat`/`float` values are read in an arbitrary field
`α` (the rationals for evaluation, the reals for the trigonometric facts); the
functions of `math.h` (`cos`, `sin`) and the constant `M_PI` are parameters of
the functions that use them.  A `GLfloat *` buffer is the function from offsets
to the floats stored there.
-/

namespace HelloGL2Cubed

/-! ## Buffers -/

/-- A `GLfloat *` buffer: the float stored at each offset. -/
abbrev Buf (α : Type) := Nat → α

/-- The assignment `m[i] = v`. -/
def store {α : Type} (m : Buf α) (i : Nat) (v : α) : Buf α :=
  fun j => if j = i then v else m j

/-- The first `n` floats of a buffer, as passed to the driver. -/
def Buf.take {α : Type} (m : Buf α) (n : Nat) : List α :=
  (List.range n).map m

/-! ## Matrix builders (`gl_code.cpp`, lines 163-192) -/

section Matrices

variable {α : Type} [Field α]

/-- Embedding of `setEulerAngles(GLfloat *m, float omega, float phi, float kappa)`:
the sixteen assignments in source order. -/
def setEulerAngles (cos sin : α → α) (m : Buf α) (omega phi kappa : α) : Buf α :=
  let m := store m 0 (cos phi)
  let m := store m 1 (-cos kappa * sin phi)
  let m := store m 2 (sin phi * sin kappa)
  let m := store m 3 0
  let m := store m 4 (cos omega * sin phi)
  let m := store m 5 (cos omega * cos phi * cos kappa - sin omega * sin kappa)
  let m := store m 6 (-cos kappa * sin omega - cos omega * cos phi * sin kappa)
  let m := store m 7 0
  let m := store m 8 (sin omega * sin phi)
  let m := store m 9 (cos omega * sin kappa + cos phi * cos kappa * sin omega)
  let m := store m 10 (cos omega * cos kappa - cos phi * sin omega * sin kappa)
  let m := store m 11 0
  let m := store m 12 0
  let m := store m 13 0
  let m := store m 14 0
  store m 15 1

/-- Embedding of `setProj(GLfloat *m)`. -/
def setProj (m : Buf α) : Buf α :=
  let m := store m 0 1
  let m := store m 1 0
  let m := store m 2 0
  let m := store m 3 0
  let m := store m 4 0
  let m := store m 5 1
  let m := store m 6 0
  let m := store m 7 0
  let m := store m 8 0
  let m := store m 9 0
  let m := store m 10 (-1010 / 990)
  let m := store m 11 (-20000 / 990)
  let m := store m 12 0
  let m := store m 13 0
  let m := store m 14 (-1)
  store m 15 0

/-- Embedding of `setShift(GLfloat *m, GLfloat x, GLfloat y, GLfloat z)`. -/
def setShift (m : Buf α) (x y z : α) : Buf α :=
  let m := store m 0 1
  let m := store m 1 0
  let m := store m 2 0
  let m := store m 3 x
  let m := store m 4 0
  let m := store m 5 1
  let m := store m 6 0
  let m := store m 7 y
  let m := store m 8 0
  let m := store m 9 0
  let m := store m 10 1
  let m := store m 11 z
  let m := store m 12 0
  let m := store m 13 0
  let m := store m 14 0
  store m 15 1

/-- Embedding of `multMat(GLfloat *z, const GLfloat *x, const GLfloat *y)`:
the three nested loops, with `z[i*4+j] = 0` before the accumulation over `k`.
The inputs `x` and `y` are read-only values and `z` is the output buffer that
the loops thread, so `z` is a buffer of its own. -/
def multMat (z x y : Buf α) : Buf α :=
  (List.range 4).foldl (fun z i =>
    (List.range 4).foldl (fun z j =>
      (List.range 4).foldl (fun z k =>
        store z (i * 4 + j) (z (i * 4 + j) + x (i * 4 + k) * y (k * 4 + j)))
        (store z (i * 4 + j) 0)) z) z

/-- The standard row-by-column product of two row-major 4x4 matrices, entry
`(i, j)`: the sum over `k` of `x[4*i+k] * y[4*k+j]`. -/
def rowByColumn (x y : Buf α) (i j : Nat) : α :=
  ∑ k in Finset.range 4, x (4 * i + k) * y (4 * k + j)

end Matrices

/-! ## The GL driver and the log, as an oracle -/

/-- The names of `GLES2/gl2.h` the program passes to the driver. -/
inductive GLenum where
  | GL_VERTEX_SHADER
  | GL_FRAGMENT_SHADER
  | GL_COMPILE_STATUS
  | GL_INFO_LOG_LENGTH
  | GL_LINK_STATUS
  | GL_TRIANGLE_STRIP
  | GL_FLOAT
  | GL_DEPTH_BUFFER_BIT
  | GL_COLOR_BUFFER_BIT
  deriving DecidableEq, Repr

/-- The priorities of `android/log.h` behind `LOGI` and `LOGE`. -/
inductive LogPriority where
  | ANDROID_LOG_INFO
  | ANDROID_LOG_ERROR
  deriving DecidableEq, Repr

/-- One call that leaves the program: a GL entry point, `malloc`/`free`, or
`__android_log_print`, with the arguments the program passes. -/
inductive Call (α : Type) where
  | glCreateShader (shaderType : GLenum)
  | glShaderSource (shader : Nat) (count : Int) (source : String)
  | glCompileShader (shader : Nat)
  | glGetShaderiv (shader : Nat) (pname : GLenum)
  | glGetShaderInfoLog (shader : Nat) (bufSize : Int)
  | glDeleteShader (shader : Nat)
  | glCreateProgram
  | glAttachShader (program shader : Nat)
  | glLinkProgram (program : Nat)
  | glGetProgramiv (program : Nat) (pname : GLenum)
  | glGetProgramInfoLog (program : Nat) (bufSize : Int)
  | glDeleteProgram (program : Nat)
  | glGetError
  | glClearColor (red green blue alpha : α)
  | glClear (mask : List GLenum)
  | glUseProgram (program : Nat)
  | glVertexAttribPointer (index : Nat) (size : Int) (type : GLenum) (normalized : Int)
      (stride : Int) (pointer : List α)
  | glEnableVertexAttribArray (index : Nat)
  | glUniformMatrix4fv (location : Nat) (count : Int) (transpose : Int) (value : List α)
  | glDrawArrays (mode : GLenum) (first count : Int)
  | malloc (size : Int)
  | free
  | log (prio : LogPriority) (text : String)
  deriving DecidableEq

/-- The driver, the heap and the log as an arbitrary oracle over a state `σ`.
`step` is the effect of a call on that state; the other fields are what a call
hands back, read in the state in which the call is made.  `glGetShaderiv` and
`glGetProgramiv` take the current content of their out-parameter and give its
content after the call.  `GL_TRUE` and `GL_FALSE` are the two constants of
`GLES2/gl2.h`.  `pendingErrors` lists the error flags recorded in a state:
`glGetError` hands them back one per call and then `GL_NO_ERROR`. -/
structure Driver (σ α : Type) where
  GL_TRUE : Int
  GL_FALSE : Int
  step : σ → Call α → σ
  glCreateShader : σ → GLenum → Nat
  glGetShaderiv : σ → Nat → GLenum → Int → Int
  glGetShaderInfoLog : σ → Nat → Int → String
  glCreateProgram : σ → Nat
  glGetProgramiv : σ → Nat → GLenum → Int → Int
  glGetProgramInfoLog : σ → Nat → Int → String
  malloc : σ → Int → Bool
  pendingErrors : σ → List Nat

/-- The state of the oracle and the calls made so far, oldest first. -/
structure World (σ α : Type) where
  gl : σ
  trace : List (Call α)

section Shaders

variable {σ α : Type}

/-- Make one call: the oracle moves on and the call is recorded. -/
def World.call (d : Driver σ α) (w : World σ α) (c : Call α) : World σ α :=
  ⟨d.step w.gl c, w.trace ++ [c]⟩

/-- Embedding of `checkGlError(const char* op)`: `glGetError` is called until
it gives 0, with one `LOGI` per non-zero code.  The codes the loop sees are
the flags the driver has recorded when the loop is entered, up to the first 0;
every run of the loop that ends is of this form, and a driver that would hand
out error codes for ever is not modelled. -/
def checkGlError (d : Driver σ α) (op : String) (w : World σ α) : World σ α :=
  let w := ((d.pendingErrors w.gl).takeWhile (fun error => error != 0)).foldl
    (fun w error =>
      (w.call d Call.glGetError).call d
        (Call.log LogPriority.ANDROID_LOG_INFO
          ("after " ++ op ++ "() glError " ++ toString error)))
    w
  w.call d Call.glGetError

/-- Embedding of `loadShader(GLenum shaderType, const char* pSource)`.  The
out-parameters `compiled` and `infoLen` start at 0; the text logged by `LOGE`
is the constant part of the format followed by the info log. -/
def loadShader (d : Driver σ α) (shaderType : GLenum) (pSource : String)
    (w : World σ α) : Nat × World σ α :=
  let shader := d.glCreateShader w.gl shaderType
  let w := w.call d (Call.glCreateShader shaderType)
  if shader ≠ 0 then
    let w := w.call d (Call.glShaderSource shader 1 pSource)
    let w := w.call d (Call.glCompileShader shader)
    let compiled := d.glGetShaderiv w.gl shader GLenum.GL_COMPILE_STATUS 0
    let w := w.call d (Call.glGetShaderiv shader GLenum.GL_COMPILE_STATUS)
    if compiled = 0 then
      let infoLen := d.glGetShaderiv w.gl shader GLenum.GL_INFO_LOG_LENGTH 0
      let w := w.call d (Call.glGetShaderiv shader GLenum.GL_INFO_LOG_LENGTH)
      if infoLen ≠ 0 then
        let buf := d.malloc w.gl infoLen
        let w := w.call d (Call.malloc infoLen)
        let w :=
          if buf then
            let text := d.glGetShaderInfoLog w.gl shader infoLen
            let w := w.call d (Call.glGetShaderInfoLog shader infoLen)
            let w := w.call d
              (Call.log LogPriority.ANDROID_LOG_ERROR ("Could not compile shader: " ++ text))
            w.call d Call.free
          else w
        let w := w.call d (Call.glDeleteShader shader)
        (0, w)
      else (shader, w)
    else (shader, w)
  else (shader, w)

/-- Embedding of `createProgram(const char* pVertexSource, const char* pFragmentSource)`. -/
def createProgram (d : Driver σ α) (pVertexSource pFragmentSource : String)
    (w : World σ α) : Nat × World σ α :=
  let loaded := loadShader d GLenum.GL_VERTEX_SHADER pVertexSource w
  let vertexShader := loaded.1
  let w := loaded.2
  if vertexShader = 0 then (0, w)
  else
    let loaded := loadShader d GLenum.GL_FRAGMENT_SHADER pFragmentSource w
    let pixelShader := loaded.1
    let w := loaded.2
    if pixelShader = 0 then (0, w)
    else
      let program := d.glCreateProgram w.gl
      let w := w.call d Call.glCreateProgram
      if program ≠ 0 then
        let w := w.call d (Call.glAttachShader program vertexShader)
        let w := checkGlError d "glAttachShader" w
        let w := w.call d (Call.glAttachShader program pixelShader)
        let w := checkGlError d "glAttachShader" w
        let w := w.call d (Call.glLinkProgram program)
        let linkStatus := d.glGetProgramiv w.gl program GLenum.GL_LINK_STATUS d.GL_FALSE
        let w := w.call d (Call.glGetProgramiv program GLenum.GL_LINK_STATUS)
        if linkStatus ≠ d.GL_TRUE then
          let bufLength := d.glGetProgramiv w.gl program GLenum.GL_INFO_LOG_LENGTH 0
          let w := w.call d (Call.glGetProgramiv program GLenum.GL_INFO_LOG_LENGTH)
          let w :=
            if bufLength ≠ 0 then
              let buf := d.malloc w.gl bufLength
              let w := w.call d (Call.malloc bufLength)
              if buf then
                let text := d.glGetProgramInfoLog w.gl program bufLength
                let w := w.call d (Call.glGetProgramInfoLog program bufLength)
                let w := w.call d
                  (Call.log LogPriority.ANDROID_LOG_ERROR ("Could not link program: " ++ text))
                w.call d Call.free
              else w
            else w
          let w := w.call d (Call.glDeleteProgram program)
          (0, w)
        else (program, w)
      else (program, w)

/-- The world in which `createProgram` asks for `GL_LINK_STATUS` (line 103):
`w` is the world after the two `loadShader` calls, then `glCreateProgram`, the
two `glAttachShader` with their `checkGlError`, and `glLinkProgram`. -/
def worldAtLinkQuery (d : Driver σ α) (program vertexShader pixelShader : Nat)
    (w : World σ α) : World σ α :=
  let w := w.call d Call.glCreateProgram
  let w := w.call d (Call.glAttachShader program vertexShader)
  let w := checkGlError d "glAttachShader" w
  let w := w.call d (Call.glAttachShader program pixelShader)
  let w := checkGlError d "glAttachShader" w
  w.call d (Call.glLinkProgram program)

end Shaders

/-! ## The frame renderer (`gl_code.cpp`, lines 150-161 and 194-232) -/

section Frames

variable {σ α : Type} [LinearOrderedField α]

/-- The constant `gTriangleVertices`, in source order. -/
def gTriangleVertices : List α :=
  [0.5, 0.5, -0.5, 0.5, -0.5, -0.5, -0.5, 0.5, -0.5, -0.5, -0.5, -0.5,
   -0.5, 0.5, 0.5, -0.5, -0.5, 0.5,
   0.5, 0.5, 0.5, 0.5, -0.5, 0.5,
   0.5, 0.5, -0.5, 0.5, -0.5, -0.5,
   0.5, 0.5, 0.5, 0.5, 0.5, -0.5, -0.5, 0.5, 0.5, -0.5, 0.5, -0.5,
   0.5, -0.5, 0.5, 0.5, -0.5, -0.5, -0.5, -0.5, 0.5, -0.5, -0.5, -0.5]

/-- The variables that live across calls: the globals `gProgram`,
`gvPositionHandle`, `gmvpHandle` and `mvp`, and the `static` locals of
`renderFrame`. -/
structure Statics (α : Type) where
  gProgram : Nat
  gvPositionHandle : Nat
  gmvpHandle : Nat
  mvp : Buf α
  grey : α
  omega : α
  phi : α
  kappa : α

/-- The automatic arrays of `renderFrame`, with the indeterminate content they
have when the function is entered. -/
structure Autos (α : Type) where
  cameraMat : Buf α
  modelMat : Buf α
  projMat : Buf α
  modelCam : Buf α

/-- The variables as the program starts: `mvp` holds the identity of its
initialiser, `grey` is zero-initialised and the angles are `0.0`; the three
handles are whatever `setupGraphics` stored. -/
def startStatics (gProgram gvPositionHandle gmvpHandle : Nat) : Statics α :=
  ⟨gProgram, gvPositionHandle, gmvpHandle,
   fun i => [1, 0, 0, 0, 0, 1, 0, 0, 0, 0, 1, 0, 0, 0, 0, 1].getD i 0,
   0, 0.0, 0.0, 0.0⟩

/-- Embedding of `renderFrame()`. -/
def renderFrame (d : Driver σ α) (cos sin : α → α) (M_PI : α) (autos : Autos α)
    (st : Statics α) (w : World σ α) : Statics α × World σ α :=
  let grey := st.grey + 0.01
  let grey := if grey > 1.0 then 0.0 else grey
  let omega := st.omega + 0.02
  let phi := st.phi + 0.03
  let kappa := st.kappa + 0.025
  let omega := if omega ≥ M_PI then -M_PI else omega
  let phi := if phi ≥ M_PI then -M_PI else phi
  let kappa := if kappa ≥ M_PI then -M_PI else kappa
  let modelMat := setEulerAngles cos sin autos.modelMat omega phi kappa
  let projMat := setProj autos.projMat
  let cameraMat := setShift autos.cameraMat 0 0 (-15.5)
  let modelCam := multMat autos.modelCam cameraMat modelMat
  let mvp := multMat st.mvp projMat modelCam
  let w := w.call d (Call.glClearColor grey grey grey 1.0)
  let w := checkGlError d "glClearColor" w
  let w := w.call d (Call.glClear [GLenum.GL_DEPTH_BUFFER_BIT, GLenum.GL_COLOR_BUFFER_BIT])
  let w := checkGlError d "glClear" w
  let w := w.call d (Call.glUseProgram st.gProgram)
  let w := checkGlError d "glUseProgram" w
  let w := w.call d
    (Call.glVertexAttribPointer st.gvPositionHandle 3 GLenum.GL_FLOAT d.GL_FALSE 0
      gTriangleVertices)
  let w := checkGlError d "glVertexAttribPointer" w
  let w := w.call d (Call.glEnableVertexAttribArray st.gvPositionHandle)
  let w := checkGlError d "glEnableVertexAttribArray" w
  let w := w.call d (Call.glUniformMatrix4fv st.gmvpHandle 1 d.GL_FALSE (Buf.take mvp 16))
  let w := checkGlError d "glUniformMatrix4fv" w
  let w := w.call d (Call.glDrawArrays GLenum.GL_TRIANGLE_STRIP 0 10)
  let w := w.call d (Call.glDrawArrays GLenum.GL_TRIANGLE_STRIP 10 4)
  let w := w.call d (Call.glDrawArrays GLenum.GL_TRIANGLE_STRIP 14 4)
  let w := checkGlError d "glDrawArrays" w
  (⟨st.gProgram, st.gvPositionHandle, st.gmvpHandle, mvp, grey, omega, phi, kappa⟩, w)

/-- The host calling `renderFrame()` `n` times in a row; `autos k` is the
content of the automatic arrays at the entry of call `k`. -/
def runFrames (d : Driver σ α) (cos sin : α → α) (M_PI : α) (autos : Nat → Autos α) :
    Nat → Statics α × World σ α → Statics α × World σ α
  | 0, s => s
  | n + 1, s =>
    let s := runFrames d cos sin M_PI autos n s
    renderFrame d cos sin M_PI (autos n) s.1 s.2

end Frames

/-! ## The update rules of `renderFrame` in isolation, and the closed forms of the specification -/

section ClosedForms

variable {α : Type} [LinearOrderedField α]

/-- Lines 202-208 of `renderFrame` for one angle with step `s`:
`a += s; if (a >= M_PI) a = -M_PI;`. -/
def angleStep (M_PI s a : α) : α :=
  if a + s ≥ M_PI then -M_PI else a + s

/-- Lines 198-201 of `renderFrame`: `grey += 0.01f; if (grey > 1.0f) grey = 0.0f;`. -/
def greyStep (grey : α) : α :=
  if grey + 0.01 > 1.0 then 0.0 else grey + 0.01

/-- The specification's `x mod m` on numbers: `x` minus the largest multiple of
`m` that is not above it. -/
def specMod [FloorRing α] (x m : α) : α :=
  x - m * (⌊x / m⌋ : ℤ)

/-- The specification's closed form for an angle: `((N*s + π) mod 2π) − π`. -/
def specAngle [FloorRing α] (M_PI s : α) (N : Nat) : α :=
  specMod ((N : α) * s + M_PI) (2 * M_PI) - M_PI

/-- The specification's closed form for the grey level: `(N*0.01) mod 1.0`. -/
def specGrey [FloorRing α] (N : Nat) : α :=
  specMod ((N : α) * 0.01) 1.0

end ClosedForms

/-! ## Observations on matrices and traces -/

section Observations

variable {α : Type}

/-- The product of two row-major 4x4 matrices as a buffer: entry `n` is row
`n / 4` by column `n % 4`. -/
def matProduct [Field α] (x y : Buf α) : Buf α :=
  fun n => rowByColumn x y (n / 4) (n % 4)

/-- The row-major 4x4 identity. -/
def identityMat [Field α] : Buf α :=
  fun n => if n / 4 = n % 4 then 1 else 0

/-- The `(first, count)` of the `glDrawArrays` calls of a trace, in order. -/
def drawRanges (t : List (Call α)) : List (Int × Int) :=
  t.filterMap (fun c =>
    match c with
    | Call.glDrawArrays _ first count => some (first, count)
    | _ => none)

/-- The vertex indices a list of `(first, count)` ranges draws, in order. -/
def drawnVertices (ranges : List (Int × Int)) : List Nat :=
  ranges.flatMap (fun r => List.range' r.1.toNat r.2.toNat)

/-- The matrices handed to `glUniformMatrix4fv` in a trace, in order. -/
def uploads (t : List (Call α)) : List (List α) :=
  t.filterMap (fun c =>
    match c with
    | Call.glUniformMatrix4fv _ _ _ value => some value
    | _ => none)

/-- Component `c` of vertex `v` of `gTriangleVertices` (three floats a vertex,
tightly packed, as `glVertexAttribPointer` is told). -/
def vertexCoord [LinearOrderedField α] (v c : Nat) : α :=
  (gTriangleVertices : List α).getD (3 * v + c) 0

/-- Row `i` of the row-major matrix `M` applied to the column vector
`(x, y, z, 1)`. -/
def clipCoord [Field α] (M : Buf α) (x y z : α) (i : Nat) : α :=
  M (4 * i) * x + M (4 * i + 1) * y + M (4 * i + 2) * z + M (4 * i + 3) * 1

end Observations

/-! ## A concrete driver for evaluation -/

/-- A driver without state that answers every query with the given values:
the handle of every shader, the handle of every program, the compile status,
the link status, the length of every info log, and whether `malloc` succeeds. -/
def constDriver (α : Type) (shader program : Nat) (compileStatus linkStatus infoLen : Int)
    (heap : Bool) : Driver Unit α :=
  ⟨1, 0, fun _ _ => (), fun _ _ => shader,
   fun _ _ pname _ => if pname = GLenum.GL_INFO_LOG_LENGTH then infoLen else compileStatus,
   fun _ _ _ => "log", fun _ => program,
   fun _ _ pname _ => if pname = GLenum.GL_INFO_LOG_LENGTH then infoLen else linkStatus,
   fun _ _ _ => "log", fun _ _ => heap, fun _ => []⟩

/-- Automatic arrays that hold zeros at entry. -/
def zeroAutos (α : Type) [Zero α] : Autos α :=
  ⟨fun _ => 0, fun _ => 0, fun _ => 0, fun _ => 0⟩

/-- The world before any call. -/
def emptyWorld (α : Type) : World Unit α :=
  ⟨(), []⟩

/-! ## Theorems -/

theorem multMat_inner {α : Type} [Field α] (z : Buf α) (idx : Nat) (f : Nat → α) :
    (List.range 4).foldl (fun z k => store z idx (z idx + f k)) (store z idx 0)
      = store z idx (∑ k in Finset.range 4, f k) := by
  funext n
  by_cases h : n = idx <;>
    simp [store, List.range, List.range.loop, Finset.sum_range_succ, h]

theorem multMat_eq_stores {α : Type} [Field α] (z x y : Buf α) :
    multMat z x y =
      (List.range 4).foldl (fun z i =>
        (List.range 4).foldl (fun z j =>
          store z (i * 4 + j) (rowByColumn x y i j)) z) z := by
  unfold multMat
  congr 1
  funext z i
  congr 1
  funext z j
  rw [multMat_inner z (i * 4 + j) (fun k => x (i * 4 + k) * y (k * 4 + j))]
  simp [rowByColumn, mul_comm]

theorem multMat_entry {α : Type} [Field α] (z x y : Buf α) (i j : Fin 4) :
    multMat z x y (4 * i.val + j.val) = rowByColumn x y i.val j.val := by
  rw [multMat_eq_stores]
  fin_cases i <;> fin_cases j <;>
    simp [store, List.range, List.range.loop]

/-- The columns of the upper-left 3x3 block written by `setEulerAngles` are
orthonormal for any `cos` and `sin` with `sin² + cos² = 1` at the three angles. -/
theorem setEulerAngles_columns {α : Type} [Field α] (cos sin : α → α) (m : Buf α)
    (omega phi kappa : α)
    (h1 : sin omega ^ 2 + cos omega ^ 2 = 1) (h2 : sin phi ^ 2 + cos phi ^ 2 = 1)
    (h3 : sin kappa ^ 2 + cos kappa ^ 2 = 1) (j k : Fin 3) :
    ∑ i in Finset.range 3,
        setEulerAngles cos sin m omega phi kappa (4 * i + j.val) *
        setEulerAngles cos sin m omega phi kappa (4 * i + k.val)
      = if j.val = k.val then 1 else 0 := by
  simp only [Finset.sum_range_succ, Finset.sum_range_zero]
  fin_cases j <;> fin_cases k <;>
    simp only [setEulerAngles, store] <;> norm_num
  · linear_combination (sin phi) ^ 2 * h1 + h2
  · linear_combination cos phi * sin phi * cos kappa * h1
  · linear_combination -(cos phi * sin phi * sin kappa) * h1
  · linear_combination cos phi * sin phi * cos kappa * h1
  · linear_combination ((cos phi) ^ 2 * (cos kappa) ^ 2 + (sin kappa) ^ 2) * h1
      + (cos kappa) ^ 2 * h2 + h3
  · linear_combination cos kappa * sin kappa * (1 - (cos phi) ^ 2) * h1
      - cos kappa * sin kappa * h2
  · linear_combination -(cos phi * sin phi * sin kappa) * h1
  · linear_combination cos kappa * sin kappa * (1 - (cos phi) ^ 2) * h1
      - cos kappa * sin kappa * h2
  · linear_combination ((cos kappa) ^ 2 + (cos phi) ^ 2 * (sin kappa) ^ 2) * h1
      + (sin kappa) ^ 2 * h2 + h3

/-- The last row and the last column written by `setEulerAngles`. -/
theorem setEulerAngles_homogeneous {α : Type} [Field α] (cos sin : α → α) (m : Buf α)
    (omega phi kappa : α) :
    setEulerAngles cos sin m omega phi kappa 3 = 0 ∧
    setEulerAngles cos sin m omega phi kappa 7 = 0 ∧
    setEulerAngles cos sin m omega phi kappa 11 = 0 ∧
    setEulerAngles cos sin m omega phi kappa 12 = 0 ∧
    setEulerAngles cos sin m omega phi kappa 13 = 0 ∧
    setEulerAngles cos sin m omega phi kappa 14 = 0 ∧
    setEulerAngles cos sin m omega phi kappa 15 = 1 := by
  simp [setEulerAngles, store]

/-- C1: for every real angle triple, the upper-left 3x3 block of the row-major
matrix written by `setEulerAngles` has orthonormal columns: column `j` dotted
with column `k` is 1 when `j = k` and 0 otherwise, whatever the buffer held. -/
theorem setEulerAngles_orthonormal (m : Buf ℝ) (omega phi kappa : ℝ) (j k : Fin 3) :
    ∑ i in Finset.range 3,
        setEulerAngles Real.cos Real.sin m omega phi kappa (4 * i + j.val) *
        setEulerAngles Real.cos Real.sin m omega phi kappa (4 * i + k.val)
      = if j = k then 1 else 0 := by
  rw [setEulerAngles_columns Real.cos Real.sin m omega phi kappa
    (Real.sin_sq_add_cos_sq omega) (Real.sin_sq_add_cos_sq phi) (Real.sin_sq_add_cos_sq kappa) j k]
  simp only [Fin.val_inj]

/-! ### The animation state -/

section Animation

variable {σ α : Type} [LinearOrderedField α]

theorem runFrames_succ (d : Driver σ α) (cos sin : α → α) (M_PI : α) (autos : Nat → Autos α)
    (n : Nat) (s : Statics α × World σ α) :
    runFrames d cos sin M_PI autos (n + 1) s
      = renderFrame d cos sin M_PI (autos n) (runFrames d cos sin M_PI autos n s).1
          (runFrames d cos sin M_PI autos n s).2 := rfl

theorem runFrames_omega (d : Driver σ α) (cos sin : α → α) (M_PI : α) (autos : Nat → Autos α)
    (n : Nat) (s : Statics α × World σ α) :
    (runFrames d cos sin M_PI autos n s).1.omega = (angleStep M_PI 0.02)^[n] s.1.omega := by
  induction n with
  | zero => rfl
  | succ n ih => rw [runFrames_succ, Function.iterate_succ_apply', ← ih]; rfl

theorem runFrames_phi (d : Driver σ α) (cos sin : α → α) (M_PI : α) (autos : Nat → Autos α)
    (n : Nat) (s : Statics α × World σ α) :
    (runFrames d cos sin M_PI autos n s).1.phi = (angleStep M_PI 0.03)^[n] s.1.phi := by
  induction n with
  | zero => rfl
  | succ n ih => rw [runFrames_succ, Function.iterate_succ_apply', ← ih]; rfl

theorem runFrames_kappa (d : Driver σ α) (cos sin : α → α) (M_PI : α) (autos : Nat → Autos α)
    (n : Nat) (s : Statics α × World σ α) :
    (runFrames d cos sin M_PI autos n s).1.kappa = (angleStep M_PI 0.025)^[n] s.1.kappa := by
  induction n with
  | zero => rfl
  | succ n ih => rw [runFrames_succ, Function.iterate_succ_apply', ← ih]; rfl

theorem runFrames_grey (d : Driver σ α) (cos sin : α → α) (M_PI : α) (autos : Nat → Autos α)
    (n : Nat) (s : Statics α × World σ α) :
    (runFrames d cos sin M_PI autos n s).1.grey = greyStep^[n] s.1.grey := by
  induction n with
  | zero => rfl
  | succ n ih => rw [runFrames_succ, Function.iterate_succ_apply', ← ih]; rfl

/-- One step keeps an angle in `[-π, π)`. -/
theorem angleStep_range (M_PI s a : α) (hpi : 0 < M_PI) (hs : 0 ≤ s)
    (ha : -M_PI ≤ a ∧ a < M_PI) :
    -M_PI ≤ angleStep M_PI s a ∧ angleStep M_PI s a < M_PI := by
  unfold angleStep
  split_ifs with h
  · constructor <;> linarith
  · constructor
    · linarith [ha.1]
    · exact not_le.mp h

theorem angleStep_iterate_range (M_PI s : α) (hpi : 0 < M_PI) (hs : 0 ≤ s) (n : Nat) :
    -M_PI ≤ (angleStep M_PI s)^[n] 0 ∧ (angleStep M_PI s)^[n] 0 < M_PI := by
  induction n with
  | zero => simp only [Function.iterate_zero, id_eq]; constructor <;> linarith
  | succ n ih =>
    rw [Function.iterate_succ_apply']
    exact angleStep_range M_PI s _ hpi hs ih

/-- Before the first wrap the angle is `n * s`. -/
theorem angleStep_iterate_lt (M_PI s : α) (hs : 0 ≤ s) (n : Nat) (h : (n : α) * s < M_PI) :
    (angleStep M_PI s)^[n] 0 = (n : α) * s := by
  induction n with
  | zero => simp
  | succ n ih =>
    have h' : ((n : α) + 1) * s < M_PI := by exact_mod_cast h
    have hn : (n : α) * s < M_PI := by nlinarith
    rw [Function.iterate_succ_apply', ih hn]
    unfold angleStep
    rw [if_neg (by rw [ge_iff_le, not_le]; linarith)]
    push_cast
    ring

/-- The first wrap: the call at which `n * s` reaches `π` stores `-π`. -/
theorem angleStep_iterate_first (M_PI s : α) (hs : 0 ≤ s) (k : Nat)
    (h1 : (k : α) * s < M_PI) (h2 : M_PI ≤ ((k : α) + 1) * s) :
    (angleStep M_PI s)^[k + 1] 0 = -M_PI := by
  rw [Function.iterate_succ_apply', angleStep_iterate_lt M_PI s hs k h1]
  unfold angleStep
  rw [if_pos (by rw [ge_iff_le]; linarith)]

/-- After a wrap the angle is `-π + m * s` while that is below `π`. -/
theorem angleStep_iterate_neg (M_PI s : α) (hs : 0 ≤ s) (m : Nat)
    (h : (m : α) * s < 2 * M_PI) :
    (angleStep M_PI s)^[m] (-M_PI) = -M_PI + (m : α) * s := by
  induction m with
  | zero => simp
  | succ m ih =>
    have h' : ((m : α) + 1) * s < 2 * M_PI := by exact_mod_cast h
    have hm : (m : α) * s < 2 * M_PI := by nlinarith
    rw [Function.iterate_succ_apply', ih hm]
    unfold angleStep
    rw [if_neg (by rw [ge_iff_le, not_le]; linarith)]
    push_cast
    ring

/-- From `-π` the angle is back at `-π` after `p + 1` calls, `p + 1` being the
least number of steps that span `2π`. -/
theorem angleStep_iterate_period (M_PI s : α) (hs : 0 ≤ s) (p : Nat)
    (h1 : (p : α) * s < 2 * M_PI) (h2 : 2 * M_PI ≤ ((p : α) + 1) * s) (q : Nat) :
    (angleStep M_PI s)^[q * (p + 1)] (-M_PI) = -M_PI := by
  induction q with
  | zero => simp
  | succ q ih =>
    rw [Nat.succ_mul, Function.iterate_add_apply, Function.iterate_succ_apply',
      angleStep_iterate_neg M_PI s hs p h1]
    unfold angleStep
    rw [if_pos (by rw [ge_iff_le]; linarith)]
    exact ih

/-- The angle at every call from the first wrap on. -/
theorem angleStep_iterate_wrapped (M_PI s : α) (hs : 0 ≤ s) (k p : Nat)
    (hk1 : (k : α) * s < M_PI) (hk2 : M_PI ≤ ((k : α) + 1) * s)
    (hp1 : (p : α) * s < 2 * M_PI) (hp2 : 2 * M_PI ≤ ((p : α) + 1) * s)
    (n : Nat) (hn : k + 1 ≤ n) :
    (angleStep M_PI s)^[n] 0 = -M_PI + (((n - (k + 1)) % (p + 1) : Nat) : α) * s := by
  obtain ⟨m, rfl⟩ := Nat.exists_eq_add_of_le hn
  have hm : k + 1 + m - (k + 1) = m := by omega
  rw [hm, Nat.add_comm (k + 1) m, Function.iterate_add_apply,
    angleStep_iterate_first M_PI s hs k hk1 hk2]
  conv_lhs => rw [← Nat.mod_add_div m (p + 1), Nat.mul_comm (p + 1) (m / (p + 1))]
  rw [Function.iterate_add_apply, angleStep_iterate_period M_PI s hs p hp1 hp2]
  apply angleStep_iterate_neg M_PI s hs
  have hr : m % (p + 1) ≤ p := Nat.lt_succ_iff.mp (Nat.mod_lt m (Nat.succ_pos p))
  have hr' : ((m % (p + 1) : Nat) : α) ≤ (p : α) := by exact_mod_cast hr
  nlinarith

/-- The grey level after `n` calls is `(n mod 101) / 100`. -/
theorem greyStep_iterate (n : Nat) :
    (greyStep^[n] (0 : α)) = ((n % 101 : Nat) : α) / 100 := by
  induction n with
  | zero => simp
  | succ n ih =>
    rw [Function.iterate_succ_apply', ih]
    unfold greyStep
    have hlt : n % 101 < 101 := Nat.mod_lt n (by norm_num)
    by_cases h : n % 101 = 100
    · have h1 : (n + 1) % 101 = 0 := by omega
      rw [h, h1]
      norm_num
    · have h1 : (n + 1) % 101 = n % 101 + 1 := by omega
      have h2 : n % 101 + 1 ≤ 100 := by omega
      have h3 : ((n % 101 : Nat) : α) + 1 ≤ 100 := by exact_mod_cast h2
      rw [h1, if_neg (by rw [gt_iff_lt, not_lt]; norm_num; linarith)]
      push_cast
      norm_num
      ring

end Animation

/-! ### Closed forms against the code -/

theorem specAngle_of_lt (M_PI s : ℝ) (hpi : 0 < M_PI) (hs : 0 ≤ s) (n : Nat)
    (h : (n : ℝ) * s < M_PI) : specAngle M_PI s n = (n : ℝ) * s := by
  have hn : (0 : ℝ) ≤ (n : ℝ) * s := mul_nonneg (Nat.cast_nonneg n) hs
  have hfloor : ⌊((n : ℝ) * s + M_PI) / (2 * M_PI)⌋ = 0 := by
    rw [Int.floor_eq_zero_iff]
    constructor
    · apply div_nonneg <;> linarith
    · rw [div_lt_one (by linarith)]; linarith
  unfold specAngle specMod
  rw [hfloor]
  simp

theorem specGrey_of_lt (n : Nat) (h : n < 100) : specGrey (α := ℚ) n = (n : ℚ) / 100 := by
  have h' : (n : ℚ) < 100 := by exact_mod_cast h
  have hn : (0 : ℚ) ≤ (n : ℚ) := Nat.cast_nonneg n
  have hfloor : ⌊(n : ℚ) * 0.01 / 1.0⌋ = 0 := by
    rw [Int.floor_eq_zero_iff]
    constructor
    · positivity
    · norm_num; linarith
  unfold specGrey specMod
  rw [hfloor]
  norm_num
  ring

theorem startStatics_values {α : Type} [LinearOrderedField α] (a b c : Nat) :
    (startStatics a b c : Statics α).omega = 0 ∧ (startStatics a b c : Statics α).phi = 0 ∧
    (startStatics a b c : Statics α).kappa = 0 ∧ (startStatics a b c : Statics α).grey = 0 := by
  norm_num [startStatics]

/-- C2: over the reals, after any number `N` of `renderFrame` calls from the
start state (angles 0), each of `omega`, `phi`, `kappa` lies in `[-π, π)`. -/
theorem renderFrame_angles_in_range {σ : Type} (d : Driver σ ℝ) (autos : Nat → Autos ℝ)
    (gProgram gvPositionHandle gmvpHandle : Nat) (w : World σ ℝ) (N : Nat) :
    (-Real.pi ≤ (runFrames d Real.cos Real.sin Real.pi autos N
        (startStatics gProgram gvPositionHandle gmvpHandle, w)).1.omega ∧
      (runFrames d Real.cos Real.sin Real.pi autos N
        (startStatics gProgram gvPositionHandle gmvpHandle, w)).1.omega < Real.pi) ∧
    (-Real.pi ≤ (runFrames d Real.cos Real.sin Real.pi autos N
        (startStatics gProgram gvPositionHandle gmvpHandle, w)).1.phi ∧
      (runFrames d Real.cos Real.sin Real.pi autos N
        (startStatics gProgram gvPositionHandle gmvpHandle, w)).1.phi < Real.pi) ∧
    (-Real.pi ≤ (runFrames d Real.cos Real.sin Real.pi autos N
        (startStatics gProgram gvPositionHandle gmvpHandle, w)).1.kappa ∧
      (runFrames d Real.cos Real.sin Real.pi autos N
        (startStatics gProgram gvPositionHandle gmvpHandle, w)).1.kappa < Real.pi) := by
  obtain ⟨h1, h2, h3, -⟩ := startStatics_values (α := ℝ) gProgram gvPositionHandle gmvpHandle
  rw [runFrames_omega, runFrames_phi, runFrames_kappa]
  simp only [h1, h2, h3]
  exact ⟨angleStep_iterate_range _ _ Real.pi_pos (by norm_num) N,
    angleStep_iterate_range _ _ Real.pi_pos (by norm_num) N,
    angleStep_iterate_range _ _ Real.pi_pos (by norm_num) N⟩

/-- C3, as amended: over the reals, after `N` `renderFrame` calls from the
start state each angle equals the closed form `((N*s + π) mod 2π) − π` of the
specification as long as `N*s < π` (there both are `N*s`); from the first call
with `N*s ≥ π` on, the angle is `−π + ((N − K) mod P) * s`, where `K` is the
least number of steps that reach `π` and `P` the least number that span `2π`:
`(K, P)` is `(158, 315)` for omega, `(105, 210)` for phi, `(126, 252)` for kappa. -/
theorem renderFrame_angle_closed_form {σ : Type} (d : Driver σ ℝ) (autos : Nat → Autos ℝ)
    (gProgram gvPositionHandle gmvpHandle : Nat) (w : World σ ℝ) (N : Nat) :
    (((N : ℝ) * 0.02 < Real.pi →
        (runFrames d Real.cos Real.sin Real.pi autos N
          (startStatics gProgram gvPositionHandle gmvpHandle, w)).1.omega
          = specAngle Real.pi 0.02 N) ∧
      (158 ≤ N →
        (runFrames d Real.cos Real.sin Real.pi autos N
          (startStatics gProgram gvPositionHandle gmvpHandle, w)).1.omega
          = -Real.pi + (((N - 158) % 315 : Nat) : ℝ) * 0.02)) ∧
    (((N : ℝ) * 0.03 < Real.pi →
        (runFrames d Real.cos Real.sin Real.pi autos N
          (startStatics gProgram gvPositionHandle gmvpHandle, w)).1.phi
          = specAngle Real.pi 0.03 N) ∧
      (105 ≤ N →
        (runFrames d Real.cos Real.sin Real.pi autos N
          (startStatics gProgram gvPositionHandle gmvpHandle, w)).1.phi
          = -Real.pi + (((N - 105) % 210 : Nat) : ℝ) * 0.03)) ∧
    (((N : ℝ) * 0.025 < Real.pi →
        (runFrames d Real.cos Real.sin Real.pi autos N
          (startStatics gProgram gvPositionHandle gmvpHandle, w)).1.kappa
          = specAngle Real.pi 0.025 N) ∧
      (126 ≤ N →
        (runFrames d Real.cos Real.sin Real.pi autos N
          (startStatics gProgram gvPositionHandle gmvpHandle, w)).1.kappa
          = -Real.pi + (((N - 126) % 252 : Nat) : ℝ) * 0.025)) := by
  obtain ⟨h1, h2, h3, -⟩ := startStatics_values (α := ℝ) gProgram gvPositionHandle gmvpHandle
  have hlo := Real.pi_gt_d2
  have hhi := Real.pi_lt_d2
  rw [runFrames_omega, runFrames_phi, runFrames_kappa]
  simp only [h1, h2, h3]
  and_intros <;> intro h
  · rw [specAngle_of_lt _ _ Real.pi_pos (by norm_num) N h]
    exact angleStep_iterate_lt _ _ (by norm_num) N h
  · exact angleStep_iterate_wrapped Real.pi 0.02 (by norm_num) 157 314
      (by norm_num at hlo ⊢; linarith) (by norm_num at hhi ⊢; linarith)
      (by norm_num at hlo ⊢; linarith) (by norm_num at hhi ⊢; linarith) N h
  · rw [specAngle_of_lt _ _ Real.pi_pos (by norm_num) N h]
    exact angleStep_iterate_lt _ _ (by norm_num) N h
  · exact angleStep_iterate_wrapped Real.pi 0.03 (by norm_num) 104 209
      (by norm_num at hlo ⊢; linarith) (by norm_num at hhi ⊢; linarith)
      (by norm_num at hlo ⊢; linarith) (by norm_num at hhi ⊢; linarith) N h
  · rw [specAngle_of_lt _ _ Real.pi_pos (by norm_num) N h]
    exact angleStep_iterate_lt _ _ (by norm_num) N h
  · exact angleStep_iterate_wrapped Real.pi 0.025 (by norm_num) 125 251
      (by norm_num at hlo ⊢; linarith) (by norm_num at hhi ⊢; linarith)
      (by norm_num at hlo ⊢; linarith) (by norm_num at hhi ⊢; linarith) N h

/-- C3, witness: after exactly 100 calls (`100 * 0.02 = 2 < π`) omega equals the
closed form of the specification. -/
theorem renderFrame_angle_closed_form_witness :
    (100 : ℝ) * 0.02 < Real.pi ∧
    (runFrames (constDriver ℝ 1 1 1 1 0 true) Real.cos Real.sin Real.pi (fun _ => zeroAutos ℝ) 100
      (startStatics 1 0 0, emptyWorld ℝ)).1.omega = specAngle Real.pi 0.02 (100 : Nat) := by
  have h : ((100 : Nat) : ℝ) * 0.02 < Real.pi := by
    have := Real.pi_gt_three
    norm_num
    linarith
  exact ⟨by exact_mod_cast h,
    (renderFrame_angle_closed_form (constDriver ℝ 1 1 1 1 0 true) (fun _ => zeroAutos ℝ)
      1 0 0 (emptyWorld ℝ) 100).1.1 h⟩

/-- C3, counterexample: after 158 calls omega has been reset to `-π`, which is
not `((158*0.02 + π) mod 2π) − π = 3.16 − 2π`. -/
theorem renderFrame_angle_closed_form_fails :
    (runFrames (constDriver ℝ 1 1 1 1 0 true) Real.cos Real.sin Real.pi (fun _ => zeroAutos ℝ) 158
      (startStatics 1 0 0, emptyWorld ℝ)).1.omega ≠ specAngle Real.pi 0.02 (158 : Nat) := by
  have hlo := Real.pi_gt_d2
  have hhi := Real.pi_lt_d2
  have hpos := Real.pi_pos
  rw [runFrames_omega, (startStatics_values (α := ℝ) 1 0 0).1,
    angleStep_iterate_first Real.pi 0.02 (by norm_num) 157
      (by norm_num at hlo ⊢; linarith) (by norm_num at hhi ⊢; linarith)]
  have hfloor : ⌊(((158 : Nat) : ℝ) * 0.02 + Real.pi) / (2 * Real.pi)⌋ = 1 := by
    rw [Int.floor_eq_iff]
    constructor
    · rw [le_div_iff₀ (by linarith)]; norm_num at hhi ⊢; linarith
    · rw [div_lt_iff₀ (by linarith)]; norm_num at hlo ⊢; linarith
  unfold specAngle specMod
  rw [hfloor]
  intro h
  norm_num at h hhi
  linarith

/-- C4, as amended: in exact rational arithmetic the grey level after `N`
`renderFrame` calls from the start state is `(N mod 101) / 100` (the value 1.0
is stored at call 100 and the reset happens at call 101); for `N < 100` this is
`(N*0.01) mod 1.0`. -/
theorem renderFrame_grey_closed_form {σ : Type} (d : Driver σ ℚ) (cos sin : ℚ → ℚ) (M_PI : ℚ)
    (autos : Nat → Autos ℚ) (gProgram gvPositionHandle gmvpHandle : Nat) (w : World σ ℚ)
    (N : Nat) :
    (runFrames d cos sin M_PI autos N
        (startStatics gProgram gvPositionHandle gmvpHandle, w)).1.grey
      = ((N % 101 : Nat) : ℚ) / 100 ∧
    (N < 100 →
      (runFrames d cos sin M_PI autos N
          (startStatics gProgram gvPositionHandle gmvpHandle, w)).1.grey = specGrey N) := by
  have h0 := (startStatics_values (α := ℚ) gProgram gvPositionHandle gmvpHandle).2.2.2
  rw [runFrames_grey]
  simp only [h0]
  rw [greyStep_iterate]
  refine ⟨rfl, fun h => ?_⟩
  rw [specGrey_of_lt N h, Nat.mod_eq_of_lt (by omega)]

/-- C4, witness: after 37 calls the grey level is `0.37 = (37*0.01) mod 1.0`. -/
theorem renderFrame_grey_closed_form_witness :
    (runFrames (constDriver ℚ 1 1 1 1 0 true) (fun _ => 1) (fun _ => 0) 3 (fun _ => zeroAutos ℚ) 37
      (startStatics 1 0 0, emptyWorld ℚ)).1.grey = specGrey 37 :=
  (renderFrame_grey_closed_form (constDriver ℚ 1 1 1 1 0 true) (fun _ => 1) (fun _ => 0) 3
    (fun _ => zeroAutos ℚ) 1 0 0 (emptyWorld ℚ) 37).2 (by norm_num)

/-- C4, counterexample: after exactly 100 calls the stored grey level is 1
(`1.0 > 1.0` is false, so no reset), while `(100*0.01) mod 1.0` is 0. -/
theorem renderFrame_grey_closed_form_fails :
    (runFrames (constDriver ℚ 1 1 1 1 0 true) (fun _ => 1) (fun _ => 0) 3 (fun _ => zeroAutos ℚ) 100
      (startStatics 1 0 0, emptyWorld ℚ)).1.grey ≠ specGrey 100 := by
  rw [runFrames_grey, (startStatics_values (α := ℚ) 1 0 0).2.2.2, greyStep_iterate]
  have hfloor : ⌊((100 : Nat) : ℚ) * 0.01 / 1.0⌋ = 1 := by
    rw [Int.floor_eq_iff]
    norm_num
  unfold specGrey specMod
  rw [hfloor]
  norm_num

/-! ### Shader and program construction -/

section Programs

variable {σ α : Type}

theorem World.call_trace (d : Driver σ α) (w : World σ α) (c : Call α) :
    (w.call d c).trace = w.trace ++ [c] := rfl

/-- When the driver reports a failed compilation with a non-empty info log,
`loadShader` deletes the shader as its last call and returns 0. -/
theorem loadShader_failure_with_log (d : Driver σ α) (shaderType : GLenum) (pSource : String)
    (w : World σ α)
    (hshader : d.glCreateShader w.gl shaderType ≠ 0)
    (hcompiled : d.glGetShaderiv
      (((w.call d (Call.glCreateShader shaderType)).call d
        (Call.glShaderSource (d.glCreateShader w.gl shaderType) 1 pSource)).call d
        (Call.glCompileShader (d.glCreateShader w.gl shaderType))).gl
      (d.glCreateShader w.gl shaderType) GLenum.GL_COMPILE_STATUS 0 = 0)
    (hlen : d.glGetShaderiv
      ((((w.call d (Call.glCreateShader shaderType)).call d
        (Call.glShaderSource (d.glCreateShader w.gl shaderType) 1 pSource)).call d
        (Call.glCompileShader (d.glCreateShader w.gl shaderType))).call d
        (Call.glGetShaderiv (d.glCreateShader w.gl shaderType) GLenum.GL_COMPILE_STATUS)).gl
      (d.glCreateShader w.gl shaderType) GLenum.GL_INFO_LOG_LENGTH 0 ≠ 0) :
    (loadShader d shaderType pSource w).1 = 0 ∧
    (loadShader d shaderType pSource w).2.trace.getLast?
      = some (Call.glDeleteShader (d.glCreateShader w.gl shaderType)) := by
  unfold loadShader
  simp only [hshader, hcompiled, hlen, ne_eq, not_false_eq_true, if_true, if_false]
  simp [World.call_trace]

/-- When the driver reports a failed compilation with an info log of length 0,
`loadShader` returns the handle of the shader and makes no call after the
query of the length. -/
theorem loadShader_failure_without_log (d : Driver σ α) (shaderType : GLenum)
    (pSource : String) (w : World σ α)
    (hshader : d.glCreateShader w.gl shaderType ≠ 0)
    (hcompiled : d.glGetShaderiv
      (((w.call d (Call.glCreateShader shaderType)).call d
        (Call.glShaderSource (d.glCreateShader w.gl shaderType) 1 pSource)).call d
        (Call.glCompileShader (d.glCreateShader w.gl shaderType))).gl
      (d.glCreateShader w.gl shaderType) GLenum.GL_COMPILE_STATUS 0 = 0)
    (hlen : d.glGetShaderiv
      ((((w.call d (Call.glCreateShader shaderType)).call d
        (Call.glShaderSource (d.glCreateShader w.gl shaderType) 1 pSource)).call d
        (Call.glCompileShader (d.glCreateShader w.gl shaderType))).call d
        (Call.glGetShaderiv (d.glCreateShader w.gl shaderType) GLenum.GL_COMPILE_STATUS)).gl
      (d.glCreateShader w.gl shaderType) GLenum.GL_INFO_LOG_LENGTH 0 = 0) :
    (loadShader d shaderType pSource w).1 = d.glCreateShader w.gl shaderType ∧
    (loadShader d shaderType pSource w).2.trace
      = w.trace ++
        [Call.glCreateShader shaderType,
         Call.glShaderSource (d.glCreateShader w.gl shaderType) 1 pSource,
         Call.glCompileShader (d.glCreateShader w.gl shaderType),
         Call.glGetShaderiv (d.glCreateShader w.gl shaderType) GLenum.GL_COMPILE_STATUS,
         Call.glGetShaderiv (d.glCreateShader w.gl shaderType) GLenum.GL_INFO_LOG_LENGTH] := by
  unfold loadShader
  simp only [hshader, hcompiled, hlen, ne_eq, not_false_eq_true, if_true, if_false,
    not_true_eq_false]
  simp [World.call_trace]

/-- C5, the code at the failing input: the driver hands out shader 7, reports
compile status 0 and info-log length 0; `loadShader` returns 7, not 0, and
`glDeleteShader` is not among its calls. -/
theorem loadShader_keeps_failed_shader :
    (loadShader (constDriver ℚ 7 1 0 1 0 true) GLenum.GL_VERTEX_SHADER "void main()"
        (emptyWorld ℚ)).1 = 7 ∧
    (loadShader (constDriver ℚ 7 1 0 1 0 true) GLenum.GL_VERTEX_SHADER "void main()"
        (emptyWorld ℚ)).2.trace
      = [Call.glCreateShader GLenum.GL_VERTEX_SHADER,
         Call.glShaderSource 7 1 "void main()",
         Call.glCompileShader 7,
         Call.glGetShaderiv 7 GLenum.GL_COMPILE_STATUS,
         Call.glGetShaderiv 7 GLenum.GL_INFO_LOG_LENGTH] := by
  constructor <;> rfl

/-- C6: `createProgram` returns a non-zero handle exactly when both
`loadShader` calls returned non-zero, `glCreateProgram` returned a non-zero
`p` and the driver reported `GL_LINK_STATUS = GL_TRUE`, and then the handle is
`p`; otherwise it returns 0.  When the vertex shader fails it returns 0 in the
world `loadShader` left (no further call); when linking fails it returns 0 and
its last call is `glDeleteProgram(p)`. -/
theorem createProgram_result (d : Driver σ α) (pVertexSource pFragmentSource : String)
    (w : World σ α) :
    ((createProgram d pVertexSource pFragmentSource w).1 ≠ 0 ↔
      (loadShader d GLenum.GL_VERTEX_SHADER pVertexSource w).1 ≠ 0 ∧
      (loadShader d GLenum.GL_FRAGMENT_SHADER pFragmentSource
        (loadShader d GLenum.GL_VERTEX_SHADER pVertexSource w).2).1 ≠ 0 ∧
      d.glCreateProgram (loadShader d GLenum.GL_FRAGMENT_SHADER pFragmentSource
        (loadShader d GLenum.GL_VERTEX_SHADER pVertexSource w).2).2.gl ≠ 0 ∧
      d.glGetProgramiv
        (worldAtLinkQuery d
          (d.glCreateProgram (loadShader d GLenum.GL_FRAGMENT_SHADER pFragmentSource
            (loadShader d GLenum.GL_VERTEX_SHADER pVertexSource w).2).2.gl)
          (loadShader d GLenum.GL_VERTEX_SHADER pVertexSource w).1
          (loadShader d GLenum.GL_FRAGMENT_SHADER pFragmentSource
            (loadShader d GLenum.GL_VERTEX_SHADER pVertexSource w).2).1
          (loadShader d GLenum.GL_FRAGMENT_SHADER pFragmentSource
            (loadShader d GLenum.GL_VERTEX_SHADER pVertexSource w).2).2).gl
        (d.glCreateProgram (loadShader d GLenum.GL_FRAGMENT_SHADER pFragmentSource
          (loadShader d GLenum.GL_VERTEX_SHADER pVertexSource w).2).2.gl)
        GLenum.GL_LINK_STATUS d.GL_FALSE = d.GL_TRUE) ∧
    ((createProgram d pVertexSource pFragmentSource w).1 ≠ 0 →
      (createProgram d pVertexSource pFragmentSource w).1
        = d.glCreateProgram (loadShader d GLenum.GL_FRAGMENT_SHADER pFragmentSource
            (loadShader d GLenum.GL_VERTEX_SHADER pVertexSource w).2).2.gl) ∧
    ((loadShader d GLenum.GL_VERTEX_SHADER pVertexSource w).1 = 0 →
      createProgram d pVertexSource pFragmentSource w
        = (0, (loadShader d GLenum.GL_VERTEX_SHADER pVertexSource w).2)) ∧
    ((loadShader d GLenum.GL_VERTEX_SHADER pVertexSource w).1 ≠ 0 →
      (loadShader d GLenum.GL_FRAGMENT_SHADER pFragmentSource
        (loadShader d GLenum.GL_VERTEX_SHADER pVertexSource w).2).1 ≠ 0 →
      d.glCreateProgram (loadShader d GLenum.GL_FRAGMENT_SHADER pFragmentSource
        (loadShader d GLenum.GL_VERTEX_SHADER pVertexSource w).2).2.gl ≠ 0 →
      d.glGetProgramiv
        (worldAtLinkQuery d
          (d.glCreateProgram (loadShader d GLenum.GL_FRAGMENT_SHADER pFragmentSource
            (loadShader d GLenum.GL_VERTEX_SHADER pVertexSource w).2).2.gl)
          (loadShader d GLenum.GL_VERTEX_SHADER pVertexSource w).1
          (loadShader d GLenum.GL_FRAGMENT_SHADER pFragmentSource
            (loadShader d GLenum.GL_VERTEX_SHADER pVertexSource w).2).1
          (loadShader d GLenum.GL_FRAGMENT_SHADER pFragmentSource
            (loadShader d GLenum.GL_VERTEX_SHADER pVertexSource w).2).2).gl
        (d.glCreateProgram (loadShader d GLenum.GL_FRAGMENT_SHADER pFragmentSource
          (loadShader d GLenum.GL_VERTEX_SHADER pVertexSource w).2).2.gl)
        GLenum.GL_LINK_STATUS d.GL_FALSE ≠ d.GL_TRUE →
      (createProgram d pVertexSource pFragmentSource w).1 = 0 ∧
      (createProgram d pVertexSource pFragmentSource w).2.trace.getLast?
        = some (Call.glDeleteProgram
            (d.glCreateProgram (loadShader d GLenum.GL_FRAGMENT_SHADER pFragmentSource
              (loadShader d GLenum.GL_VERTEX_SHADER pVertexSource w).2).2.gl))) := by
  unfold createProgram worldAtLinkQuery
  simp only []
  split_ifs <;> simp_all [World.call_trace]

/-- C6, witness: the driver compiles both shaders (handle 7), hands out
program 9 and reports link status 0 with an info log of length 5;
`createProgram` returns 0 and its last call is `glDeleteProgram(9)`. -/
theorem createProgram_result_witness :
    (createProgram (constDriver ℚ 7 9 1 0 5 true) "vertex" "fragment" (emptyWorld ℚ)).1 = 0 ∧
    (createProgram (constDriver ℚ 7 9 1 0 5 true) "vertex" "fragment"
        (emptyWorld ℚ)).2.trace.getLast? = some (Call.glDeleteProgram 9) :=
  (createProgram_result (constDriver ℚ 7 9 1 0 5 true) "vertex" "fragment"
    (emptyWorld ℚ)).2.2.2 (by decide) (by decide) (by decide) (by decide)

end Programs

/-! ### Traces of a frame -/

section Traces

variable {σ α : Type}

theorem foldl_call_filterMap {β : Type} (f : Call α → Option β) (d : Driver σ α)
    (g : Nat → Call α) (hget : f Call.glGetError = none) (hg : ∀ e, f (g e) = none)
    (l : List Nat) (w : World σ α) :
    (l.foldl (fun w e => (w.call d Call.glGetError).call d (g e)) w).trace.filterMap f
      = w.trace.filterMap f := by
  induction l generalizing w with
  | nil => rfl
  | cons e l ih =>
    rw [List.foldl_cons, ih]
    simp [World.call_trace, List.filterMap_append, hget, hg]

theorem checkGlError_filterMap {β : Type} (f : Call α → Option β) (d : Driver σ α)
    (hget : f Call.glGetError = none) (hlog : ∀ p t, f (Call.log p t) = none)
    (op : String) (w : World σ α) :
    (checkGlError d op w).trace.filterMap f = w.trace.filterMap f := by
  unfold checkGlError
  simp only [World.call_trace, List.filterMap_append]
  rw [foldl_call_filterMap f d _ hget (fun e => hlog _ _)]
  simp [hget]

theorem checkGlError_drawRanges (d : Driver σ α) (op : String) (w : World σ α) :
    drawRanges (checkGlError d op w).trace = drawRanges w.trace :=
  checkGlError_filterMap _ d rfl (fun _ _ => rfl) op w

theorem checkGlError_uploads (d : Driver σ α) (op : String) (w : World σ α) :
    uploads (checkGlError d op w).trace = uploads w.trace :=
  checkGlError_filterMap _ d rfl (fun _ _ => rfl) op w

theorem call_drawRanges (d : Driver σ α) (w : World σ α) (c : Call α) :
    drawRanges (w.call d c).trace = drawRanges w.trace ++ drawRanges [c] := by
  simp [drawRanges, World.call_trace, List.filterMap_append]

theorem call_uploads (d : Driver σ α) (w : World σ α) (c : Call α) :
    uploads (w.call d c).trace = uploads w.trace ++ uploads [c] := by
  simp [uploads, World.call_trace, List.filterMap_append]

theorem renderFrame_drawRanges [LinearOrderedField α] (d : Driver σ α) (cos sin : α → α)
    (M_PI : α) (autos : Autos α) (st : Statics α) (w : World σ α) :
    drawRanges (renderFrame d cos sin M_PI autos st w).2.trace
      = drawRanges w.trace ++ [(0, 10), (10, 4), (14, 4)] := by
  unfold renderFrame
  simp only [checkGlError_drawRanges, call_drawRanges]
  simp [drawRanges]

theorem renderFrame_uploads [LinearOrderedField α] (d : Driver σ α) (cos sin : α → α)
    (M_PI : α) (autos : Autos α) (st : Statics α) (w : World σ α) :
    uploads (renderFrame d cos sin M_PI autos st w).2.trace
      = uploads w.trace ++ [Buf.take (renderFrame d cos sin M_PI autos st w).1.mvp 16] := by
  unfold renderFrame
  simp only [checkGlError_uploads, call_uploads]
  simp [uploads]

end Traces

/-! ### Matrix composition -/

section Composition

variable {σ α : Type} [LinearOrderedField α]

theorem multMat_apply (z x y : Buf α) (n : Nat) (h : n < 16) :
    multMat z x y n = matProduct x y n := by
  have h4 : n % 4 < 4 := Nat.mod_lt n (by norm_num)
  have hd : n / 4 < 4 := by omega
  have hn : n = 4 * (n / 4) + n % 4 := by omega
  have := multMat_entry z x y ⟨n / 4, hd⟩ ⟨n % 4, h4⟩
  simp only [] at this
  rw [← hn] at this
  exact this

/-- C7: `multMat(z, x, y)` stores in `z[4*i+j]` the sum over `k` of
`x[4*i+k] * y[4*k+j]`, the row-by-column product of row-major 4x4 matrices;
the `mvp` that `renderFrame` stores, and hands to `glUniformMatrix4fv`, is
`projMat * (cameraMat * modelMat)` for the angles of the frame. -/
theorem multMat_is_matrix_product (z x y : Buf α) (d : Driver σ α) (cos sin : α → α)
    (M_PI : α) (autos : Autos α) (st : Statics α) (w : World σ α) (i j : Fin 4) :
    multMat z x y (4 * i.val + j.val)
      = ∑ k in Finset.range 4, x (4 * i.val + k) * y (4 * k + j.val) ∧
    (renderFrame d cos sin M_PI autos st w).1.mvp (4 * i.val + j.val)
      = matProduct (setProj autos.projMat)
          (matProduct (setShift autos.cameraMat 0 0 (-15.5))
            (setEulerAngles cos sin autos.modelMat
              (renderFrame d cos sin M_PI autos st w).1.omega
              (renderFrame d cos sin M_PI autos st w).1.phi
              (renderFrame d cos sin M_PI autos st w).1.kappa)) (4 * i.val + j.val) ∧
    uploads (renderFrame d cos sin M_PI autos st w).2.trace
      = uploads w.trace ++ [Buf.take (renderFrame d cos sin M_PI autos st w).1.mvp 16] := by
  refine ⟨multMat_entry z x y i j, ?_, renderFrame_uploads d cos sin M_PI autos st w⟩
  have hi := i.isLt
  have hj := j.isLt
  have hn : 4 * i.val + j.val < 16 := by omega
  have h1 : (renderFrame d cos sin M_PI autos st w).1.mvp
      = multMat st.mvp (setProj autos.projMat)
          (multMat autos.modelCam (setShift autos.cameraMat 0 0 (-15.5))
            (setEulerAngles cos sin autos.modelMat
              (renderFrame d cos sin M_PI autos st w).1.omega
              (renderFrame d cos sin M_PI autos st w).1.phi
              (renderFrame d cos sin M_PI autos st w).1.kappa)) := rfl
  rw [h1, multMat_apply _ _ _ _ hn]
  unfold matProduct rowByColumn
  apply Finset.sum_congr rfl
  intro k hk
  have hk4 : k < 4 := Finset.mem_range.mp hk
  have hm4 : (4 * i.val + j.val) % 4 < 4 := Nat.mod_lt _ (by norm_num)
  have hidx : 4 * k + (4 * i.val + j.val) % 4 < 16 := by omega
  rw [multMat_apply _ _ _ _ hidx]
  rfl

/-- C9, as amended: the three `glDrawArrays` calls of a frame use
`(first, count) = (0,10), (10,4), (14,4)`; the vertices they draw are 0, 1, ...,
17, each once and in order (no overlap, no gap), which are the 18 vertices of
`gTriangleVertices`, a buffer of 54 floats (three a vertex). -/
theorem renderFrame_draws_all_vertices (d : Driver σ α) (cos sin : α → α)
    (M_PI : α) (autos : Autos α) (st : Statics α) (w : World σ α) :
    drawRanges (renderFrame d cos sin M_PI autos st w).2.trace
      = drawRanges w.trace ++ [(0, 10), (10, 4), (14, 4)] ∧
    drawnVertices [(0, 10), (10, 4), (14, 4)] = List.range 18 ∧
    (gTriangleVertices : List α).length = 54 ∧
    (gTriangleVertices : List α).length = 3 * 18 :=
  ⟨renderFrame_drawRanges d cos sin M_PI autos st w, by decide, rfl, rfl⟩

/-- C9, counterexample: the buffer does not hold 36 floats (it holds 54). -/
theorem gTriangleVertices_not_36_floats :
    ¬ ((gTriangleVertices : List ℚ).length = 36 ∧
       (gTriangleVertices : List ℚ).length = 3 * 18) := by
  decide

end Composition

/-! ### Composition order and the clip volume -/

section Clip

variable {α : Type} [LinearOrderedField α]

theorem multMat_multMat_apply (z1 z2 x y v : Buf α) (n : Nat) (h : n < 16) :
    multMat z1 x (multMat z2 y v) n = matProduct x (matProduct y v) n := by
  rw [multMat_apply _ _ _ _ h]
  unfold matProduct rowByColumn
  apply Finset.sum_congr rfl
  intro k hk
  have hk4 : k < 4 := Finset.mem_range.mp hk
  have hm4 : n % 4 < 4 := Nat.mod_lt _ (by norm_num)
  have hidx : 4 * k + n % 4 < 16 := by omega
  rw [multMat_apply _ _ _ _ hidx]
  rfl

/-- The entries of `projMat * (cameraMat * m)` for a matrix `m` whose last row
and last column are those of the identity. -/
theorem camera_then_model (pm cm m : Buf α)
    (h : m 3 = 0 ∧ m 7 = 0 ∧ m 11 = 0 ∧ m 12 = 0 ∧ m 13 = 0 ∧ m 14 = 0 ∧ m 15 = 1) :
    matProduct (setProj pm) (matProduct (setShift cm 0 0 (-15.5)) m) 0 = m 0 ∧
    matProduct (setProj pm) (matProduct (setShift cm 0 0 (-15.5)) m) 1 = m 1 ∧
    matProduct (setProj pm) (matProduct (setShift cm 0 0 (-15.5)) m) 2 = m 2 ∧
    matProduct (setProj pm) (matProduct (setShift cm 0 0 (-15.5)) m) 3 = 0 ∧
    matProduct (setProj pm) (matProduct (setShift cm 0 0 (-15.5)) m) 4 = m 4 ∧
    matProduct (setProj pm) (matProduct (setShift cm 0 0 (-15.5)) m) 5 = m 5 ∧
    matProduct (setProj pm) (matProduct (setShift cm 0 0 (-15.5)) m) 6 = m 6 ∧
    matProduct (setProj pm) (matProduct (setShift cm 0 0 (-15.5)) m) 7 = 0 ∧
    matProduct (setProj pm) (matProduct (setShift cm 0 0 (-15.5)) m) 8 = -1010 / 990 * m 8 ∧
    matProduct (setProj pm) (matProduct (setShift cm 0 0 (-15.5)) m) 9 = -1010 / 990 * m 9 ∧
    matProduct (setProj pm) (matProduct (setShift cm 0 0 (-15.5)) m) 10 = -1010 / 990 * m 10 ∧
    matProduct (setProj pm) (matProduct (setShift cm 0 0 (-15.5)) m) 11 = -1010 / 990 * (-15.5) + -20000 / 990 ∧
    matProduct (setProj pm) (matProduct (setShift cm 0 0 (-15.5)) m) 12 = -m 8 ∧
    matProduct (setProj pm) (matProduct (setShift cm 0 0 (-15.5)) m) 13 = -m 9 ∧
    matProduct (setProj pm) (matProduct (setShift cm 0 0 (-15.5)) m) 14 = -m 10 ∧
    matProduct (setProj pm) (matProduct (setShift cm 0 0 (-15.5)) m) 15 = 15.5 := by
  obtain ⟨h3, h7, h11, h12, h13, h14, h15⟩ := h
  simp only [matProduct, rowByColumn, Finset.sum_range_succ, Finset.sum_range_zero]
  simp only [Nat.reduceDiv, Nat.reduceMod, Nat.reduceMul, Nat.reduceAdd]
  simp only [setProj, setShift, store]
  and_intros <;>
    norm_num [h3, h7, h11, h12, h13, h14, h15]

/-- The entries of `projMat * (m * cameraMat)`, the composition in swapped order. -/
theorem model_then_camera (pm cm m : Buf α)
    (h : m 3 = 0 ∧ m 7 = 0 ∧ m 11 = 0 ∧ m 12 = 0 ∧ m 13 = 0 ∧ m 14 = 0 ∧ m 15 = 1) :
    matProduct (setProj pm) (matProduct m (setShift cm 0 0 (-15.5))) 0 = m 0 ∧
    matProduct (setProj pm) (matProduct m (setShift cm 0 0 (-15.5))) 1 = m 1 ∧
    matProduct (setProj pm) (matProduct m (setShift cm 0 0 (-15.5))) 2 = m 2 ∧
    matProduct (setProj pm) (matProduct m (setShift cm 0 0 (-15.5))) 3 = -15.5 * m 2 ∧
    matProduct (setProj pm) (matProduct m (setShift cm 0 0 (-15.5))) 4 = m 4 ∧
    matProduct (setProj pm) (matProduct m (setShift cm 0 0 (-15.5))) 5 = m 5 ∧
    matProduct (setProj pm) (matProduct m (setShift cm 0 0 (-15.5))) 6 = m 6 ∧
    matProduct (setProj pm) (matProduct m (setShift cm 0 0 (-15.5))) 7 = -15.5 * m 6 ∧
    matProduct (setProj pm) (matProduct m (setShift cm 0 0 (-15.5))) 8 = -1010 / 990 * m 8 ∧
    matProduct (setProj pm) (matProduct m (setShift cm 0 0 (-15.5))) 9 = -1010 / 990 * m 9 ∧
    matProduct (setProj pm) (matProduct m (setShift cm 0 0 (-15.5))) 10 = -1010 / 990 * m 10 ∧
    matProduct (setProj pm) (matProduct m (setShift cm 0 0 (-15.5))) 11 = -1010 / 990 * (-15.5 * m 10) + -20000 / 990 ∧
    matProduct (setProj pm) (matProduct m (setShift cm 0 0 (-15.5))) 12 = -m 8 ∧
    matProduct (setProj pm) (matProduct m (setShift cm 0 0 (-15.5))) 13 = -m 9 ∧
    matProduct (setProj pm) (matProduct m (setShift cm 0 0 (-15.5))) 14 = -m 10 ∧
    matProduct (setProj pm) (matProduct m (setShift cm 0 0 (-15.5))) 15 = 15.5 * m 10 := by
  obtain ⟨h3, h7, h11, h12, h13, h14, h15⟩ := h
  simp only [matProduct, rowByColumn, Finset.sum_range_succ, Finset.sum_range_zero]
  simp only [Nat.reduceDiv, Nat.reduceMod, Nat.reduceMul, Nat.reduceAdd]
  simp only [setProj, setShift, store]
  and_intros <;>
    norm_num [h3, h7, h11, h12, h13, h14, h15] <;> ring

/-- Swapping camera and model changes the product exactly when the third
column of the model block is not `(0, 0, 1)`. -/
theorem swapped_differs_iff (m : Buf α)
    (h : m 3 = 0 ∧ m 7 = 0 ∧ m 11 = 0 ∧ m 12 = 0 ∧ m 13 = 0 ∧ m 14 = 0 ∧ m 15 = 1)
    (z1 z2 z3 z4 pm cm : Buf α) :
    (∃ n, n < 16 ∧
      multMat z1 (setProj pm) (multMat z2 (setShift cm 0 0 (-15.5)) m) n
        ≠ multMat z3 (setProj pm) (multMat z4 m (setShift cm 0 0 (-15.5))) n)
      ↔ ¬ (m 2 = 0 ∧ m 6 = 0 ∧ m 10 = 1) := by
  obtain ⟨a0, a1, a2, a3, a4, a5, a6, a7, a8, a9, a10, a11, a12, a13, a14, a15⟩ :=
    camera_then_model pm cm m h
  obtain ⟨b0, b1, b2, b3, b4, b5, b6, b7, b8, b9, b10, b11, b12, b13, b14, b15⟩ :=
    model_then_camera pm cm m h
  constructor
  · rintro ⟨n, hn, hne⟩ ⟨h2, h6, h10⟩
    apply hne
    rw [multMat_multMat_apply _ _ _ _ _ n hn, multMat_multMat_apply _ _ _ _ _ n hn]
    interval_cases n <;>
      simp only [a0, a1, a2, a3, a4, a5, a6, a7, a8, a9, a10, a11, a12, a13, a14, a15,
        b0, b1, b2, b3, b4, b5, b6, b7, b8, b9, b10, b11, b12, b13, b14, b15, h2, h6, h10] <;>
      norm_num
  · intro hnot
    by_contra hall
    push_neg at hall
    apply hnot
    have e3 := hall 3 (by norm_num)
    have e7 := hall 7 (by norm_num)
    have e15 := hall 15 (by norm_num)
    rw [multMat_multMat_apply _ _ _ _ _ _ (by norm_num),
      multMat_multMat_apply _ _ _ _ _ _ (by norm_num)] at e3 e7 e15
    rw [a3, b3] at e3
    rw [a7, b7] at e7
    rw [a15, b15] at e15
    norm_num at e3 e7 e15
    refine ⟨?_, ?_, ?_⟩ <;> linarith

/-- Three numbers whose squares add up to `3/4` are each within `7/8` of 0. -/
theorem sq_sum_bound (X Y Z : α) (h : X ^ 2 + Y ^ 2 + Z ^ 2 = 3 / 4) :
    X ≤ 7 / 8 ∧ -(7 / 8) ≤ X := by
  constructor
  · nlinarith [sq_nonneg (X - 1), sq_nonneg Y, sq_nonneg Z]
  · nlinarith [sq_nonneg (X + 1), sq_nonneg Y, sq_nonneg Z]

/-- A point with coordinates of absolute value `1/2`, turned by a matrix with
orthonormal columns, moved by the camera and projected, is inside the clip
volume. -/
theorem clip_of_orthonormal (m : Buf α)
    (h : m 3 = 0 ∧ m 7 = 0 ∧ m 11 = 0 ∧ m 12 = 0 ∧ m 13 = 0 ∧ m 14 = 0 ∧ m 15 = 1)
    (hcol : ∀ j k : Fin 3,
      ∑ i in Finset.range 3, m (4 * i + j.val) * m (4 * i + k.val)
        = if j.val = k.val then 1 else 0)
    (x y z : α) (hx : x ^ 2 = 1 / 4) (hy : y ^ 2 = 1 / 4) (hz : z ^ 2 = 1 / 4)
    (z1 z2 pm cm : Buf α) (i : Fin 3) :
    0 < clipCoord (multMat z1 (setProj pm) (multMat z2 (setShift cm 0 0 (-15.5)) m)) x y z 3 ∧
    -clipCoord (multMat z1 (setProj pm) (multMat z2 (setShift cm 0 0 (-15.5)) m)) x y z 3
      ≤ clipCoord (multMat z1 (setProj pm) (multMat z2 (setShift cm 0 0 (-15.5)) m)) x y z i.val ∧
    clipCoord (multMat z1 (setProj pm) (multMat z2 (setShift cm 0 0 (-15.5)) m)) x y z i.val
      ≤ clipCoord (multMat z1 (setProj pm) (multMat z2 (setShift cm 0 0 (-15.5)) m)) x y z 3 := by
  obtain ⟨a0, a1, a2, a3, a4, a5, a6, a7, a8, a9, a10, a11, a12, a13, a14, a15⟩ :=
    camera_then_model pm cm m h
  have c00 := hcol 0 0
  have c11 := hcol 1 1
  have c22 := hcol 2 2
  have c01 := hcol 0 1
  have c02 := hcol 0 2
  have c12 := hcol 1 2
  simp only [Finset.sum_range_succ, Finset.sum_range_zero] at c00 c11 c22 c01 c02 c12
  norm_num at c00 c11 c22 c01 c02 c12
  have hS : (m 0 * x + m 1 * y + m 2 * z) ^ 2 + (m 4 * x + m 5 * y + m 6 * z) ^ 2
      + (m 8 * x + m 9 * y + m 10 * z) ^ 2 = 3 / 4 := by
    linear_combination x ^ 2 * c00 + y ^ 2 * c11 + z ^ 2 * c22 + 2 * x * y * c01
      + 2 * x * z * c02 + 2 * y * z * c12 + hx + hy + hz
  obtain ⟨hX1, hX2⟩ := sq_sum_bound (m 0 * x + m 1 * y + m 2 * z) (m 4 * x + m 5 * y + m 6 * z)
    (m 8 * x + m 9 * y + m 10 * z) hS
  obtain ⟨hY1, hY2⟩ := sq_sum_bound (m 4 * x + m 5 * y + m 6 * z) (m 0 * x + m 1 * y + m 2 * z)
    (m 8 * x + m 9 * y + m 10 * z) (by rw [← hS]; ring)
  obtain ⟨hZ1, hZ2⟩ := sq_sum_bound (m 8 * x + m 9 * y + m 10 * z) (m 0 * x + m 1 * y + m 2 * z)
    (m 4 * x + m 5 * y + m 6 * z) (by rw [← hS]; ring)
  have m0 := (multMat_multMat_apply z1 z2 (setProj pm) (setShift cm 0 0 (-15.5)) m 0
    (by norm_num)).trans a0
  have m1 := (multMat_multMat_apply z1 z2 (setProj pm) (setShift cm 0 0 (-15.5)) m 1
    (by norm_num)).trans a1
  have m2 := (multMat_multMat_apply z1 z2 (setProj pm) (setShift cm 0 0 (-15.5)) m 2
    (by norm_num)).trans a2
  have m3 := (multMat_multMat_apply z1 z2 (setProj pm) (setShift cm 0 0 (-15.5)) m 3
    (by norm_num)).trans a3
  have m4 := (multMat_multMat_apply z1 z2 (setProj pm) (setShift cm 0 0 (-15.5)) m 4
    (by norm_num)).trans a4
  have m5 := (multMat_multMat_apply z1 z2 (setProj pm) (setShift cm 0 0 (-15.5)) m 5
    (by norm_num)).trans a5
  have m6 := (multMat_multMat_apply z1 z2 (setProj pm) (setShift cm 0 0 (-15.5)) m 6
    (by norm_num)).trans a6
  have m7 := (multMat_multMat_apply z1 z2 (setProj pm) (setShift cm 0 0 (-15.5)) m 7
    (by norm_num)).trans a7
  have m8 := (multMat_multMat_apply z1 z2 (setProj pm) (setShift cm 0 0 (-15.5)) m 8
    (by norm_num)).trans a8
  have m9 := (multMat_multMat_apply z1 z2 (setProj pm) (setShift cm 0 0 (-15.5)) m 9
    (by norm_num)).trans a9
  have m10 := (multMat_multMat_apply z1 z2 (setProj pm) (setShift cm 0 0 (-15.5)) m 10
    (by norm_num)).trans a10
  have m11 := (multMat_multMat_apply z1 z2 (setProj pm) (setShift cm 0 0 (-15.5)) m 11
    (by norm_num)).trans a11
  have m12 := (multMat_multMat_apply z1 z2 (setProj pm) (setShift cm 0 0 (-15.5)) m 12
    (by norm_num)).trans a12
  have m13 := (multMat_multMat_apply z1 z2 (setProj pm) (setShift cm 0 0 (-15.5)) m 13
    (by norm_num)).trans a13
  have m14 := (multMat_multMat_apply z1 z2 (setProj pm) (setShift cm 0 0 (-15.5)) m 14
    (by norm_num)).trans a14
  have m15 := (multMat_multMat_apply z1 z2 (setProj pm) (setShift cm 0 0 (-15.5)) m 15
    (by norm_num)).trans a15
  clear hS c00 c11 c22 c01 c02 c12 hx hy hz hcol h
  clear a0 a1 a2 a3 a4 a5 a6 a7 a8 a9 a10 a11 a12 a13 a14 a15
  obtain ⟨i, hi⟩ := i
  interval_cases i
  · simp only [clipCoord, Nat.reduceMul, Nat.reduceAdd, m0, m1, m2, m3, m12, m13, m14, m15]
    refine ⟨?_, ?_, ?_⟩ <;> norm_num <;> linarith only [hX1, hX2, hY1, hY2, hZ1, hZ2]
  · simp only [clipCoord, Nat.reduceMul, Nat.reduceAdd, m4, m5, m6, m7, m12, m13, m14, m15]
    refine ⟨?_, ?_, ?_⟩ <;> norm_num <;> linarith only [hX1, hX2, hY1, hY2, hZ1, hZ2]
  · simp only [clipCoord, Nat.reduceMul, Nat.reduceAdd, m8, m9, m10, m11, m12, m13, m14, m15]
    refine ⟨?_, ?_, ?_⟩ <;> norm_num <;> linarith only [hX1, hX2, hY1, hY2, hZ1, hZ2]

theorem gTriangleVertices_sq (e : α) (he : e ∈ (gTriangleVertices : List α)) :
    e ^ 2 = 1 / 4 := by
  have hp : (0.5 : α) ^ 2 = 1 / 4 := by norm_num
  have hn : (-0.5 : α) ^ 2 = 1 / 4 := by norm_num
  have hall : ∀ x ∈ (gTriangleVertices : List α), x ^ 2 = 1 / 4 := by
    unfold gTriangleVertices
    simp only [List.forall_mem_cons, List.not_mem_nil, false_imp_iff, implies_true, and_true,
      hp, hn, and_self]
  exact hall e he

theorem vertexCoord_sq (v c : Nat) (hv : v < 18) (hc : c < 3) :
    (vertexCoord v c : α) ^ 2 = 1 / 4 := by
  have hlen : (gTriangleVertices : List α).length = 54 := rfl
  have hlt : 3 * v + c < (gTriangleVertices : List α).length := by omega
  unfold vertexCoord
  rw [List.getD_eq_getElem _ _ hlt]
  exact gTriangleVertices_sq _ (List.getElem_mem hlt)

end Clip

/-- C8, as amended: over the reals, for every angle triple, swapping the order
of camera and model changes `projMat * (cameraMat * modelMat)` in at least one
of its 16 entries exactly when the third column `(m[2], m[6], m[10])` of
`modelMat = setEulerAngles(omega, phi, kappa)` is not `(0, 0, 1)`, that is,
when the rotation moves the axis along which the camera is shifted. -/
theorem swapped_composition_differs (omega phi kappa : ℝ) (z1 z2 z3 z4 pm cm mm : Buf ℝ) :
    (∃ n, n < 16 ∧
      multMat z1 (setProj pm) (multMat z2 (setShift cm 0 0 (-15.5))
          (setEulerAngles Real.cos Real.sin mm omega phi kappa)) n
        ≠ multMat z3 (setProj pm) (multMat z4
          (setEulerAngles Real.cos Real.sin mm omega phi kappa)
          (setShift cm 0 0 (-15.5))) n)
      ↔ ¬ (setEulerAngles Real.cos Real.sin mm omega phi kappa 2 = 0 ∧
           setEulerAngles Real.cos Real.sin mm omega phi kappa 6 = 0 ∧
           setEulerAngles Real.cos Real.sin mm omega phi kappa 10 = 1) :=
  swapped_differs_iff _ (setEulerAngles_homogeneous Real.cos Real.sin mm omega phi kappa)
    z1 z2 z3 z4 pm cm

/-- C8, counterexample: for `(omega, phi, kappa) = (0, π, 0)` the model matrix
is not the identity (its entry 0 is `cos π = -1`), and yet the two composition
orders give the same 16 entries. -/
theorem swapped_composition_equal_at_half_turn :
    ¬ ((∃ n, n < 16 ∧
          setEulerAngles Real.cos Real.sin (fun _ => 0) 0 Real.pi 0 n ≠ identityMat n) →
        ∃ n, n < 16 ∧
          multMat (fun _ => 0) (setProj (fun _ => 0)) (multMat (fun _ => 0)
              (setShift (fun _ => 0) 0 0 (-15.5))
              (setEulerAngles Real.cos Real.sin (fun _ => 0) 0 Real.pi 0)) n
            ≠ multMat (fun _ => 0) (setProj (fun _ => 0)) (multMat (fun _ => 0)
              (setEulerAngles Real.cos Real.sin (fun _ => 0) 0 Real.pi 0)
              (setShift (fun _ => 0) 0 0 (-15.5))) n) := by
  intro h
  have hne : ∃ n, n < 16 ∧
      setEulerAngles Real.cos Real.sin (fun _ => 0) 0 Real.pi 0 n ≠ identityMat n := by
    refine ⟨0, by norm_num, ?_⟩
    simp only [setEulerAngles, store, identityMat]
    norm_num
  have hd := (swapped_differs_iff _
    (setEulerAngles_homogeneous Real.cos Real.sin (fun _ => 0) 0 Real.pi 0)
    _ _ _ _ _ _).mp (h hne)
  apply hd
  simp only [setEulerAngles, store]
  norm_num

/-- C10: over the reals, for every angle triple and each of the 18 vertices
`(x, y, z)` of `gTriangleVertices`, the point `M * (x, y, z, 1)` with
`M = projMat * (cameraMat * modelMat)` read row-major has `cw > 0` and each of
`cx`, `cy`, `cz` between `-cw` and `cw`; the same holds for the `mvp` that
`renderFrame` stores, whatever the state it is called in. -/
theorem cube_inside_clip_volume {σ : Type} (omega phi kappa : ℝ) (z1 z2 pm cm mm : Buf ℝ)
    (d : Driver σ ℝ) (autos : Autos ℝ) (st : Statics ℝ) (w : World σ ℝ)
    (v : Fin 18) (i : Fin 3) :
    (0 < clipCoord
        (multMat z1 (setProj pm) (multMat z2 (setShift cm 0 0 (-15.5))
          (setEulerAngles Real.cos Real.sin mm omega phi kappa)))
        (vertexCoord v.val 0) (vertexCoord v.val 1) (vertexCoord v.val 2) 3 ∧
      -clipCoord
        (multMat z1 (setProj pm) (multMat z2 (setShift cm 0 0 (-15.5))
          (setEulerAngles Real.cos Real.sin mm omega phi kappa)))
        (vertexCoord v.val 0) (vertexCoord v.val 1) (vertexCoord v.val 2) 3
        ≤ clipCoord
          (multMat z1 (setProj pm) (multMat z2 (setShift cm 0 0 (-15.5))
            (setEulerAngles Real.cos Real.sin mm omega phi kappa)))
          (vertexCoord v.val 0) (vertexCoord v.val 1) (vertexCoord v.val 2) i.val ∧
      clipCoord
          (multMat z1 (setProj pm) (multMat z2 (setShift cm 0 0 (-15.5))
            (setEulerAngles Real.cos Real.sin mm omega phi kappa)))
          (vertexCoord v.val 0) (vertexCoord v.val 1) (vertexCoord v.val 2) i.val
        ≤ clipCoord
          (multMat z1 (setProj pm) (multMat z2 (setShift cm 0 0 (-15.5))
            (setEulerAngles Real.cos Real.sin mm omega phi kappa)))
          (vertexCoord v.val 0) (vertexCoord v.val 1) (vertexCoord v.val 2) 3) ∧
    (0 < clipCoord (renderFrame d Real.cos Real.sin Real.pi autos st w).1.mvp
        (vertexCoord v.val 0) (vertexCoord v.val 1) (vertexCoord v.val 2) 3 ∧
      -clipCoord (renderFrame d Real.cos Real.sin Real.pi autos st w).1.mvp
        (vertexCoord v.val 0) (vertexCoord v.val 1) (vertexCoord v.val 2) 3
        ≤ clipCoord (renderFrame d Real.cos Real.sin Real.pi autos st w).1.mvp
          (vertexCoord v.val 0) (vertexCoord v.val 1) (vertexCoord v.val 2) i.val ∧
      clipCoord (renderFrame d Real.cos Real.sin Real.pi autos st w).1.mvp
          (vertexCoord v.val 0) (vertexCoord v.val 1) (vertexCoord v.val 2) i.val
        ≤ clipCoord (renderFrame d Real.cos Real.sin Real.pi autos st w).1.mvp
          (vertexCoord v.val 0) (vertexCoord v.val 1) (vertexCoord v.val 2) 3) := by
  have hx := vertexCoord_sq (α := ℝ) v.val 0 v.isLt (by norm_num)
  have hy := vertexCoord_sq (α := ℝ) v.val 1 v.isLt (by norm_num)
  have hz := vertexCoord_sq (α := ℝ) v.val 2 v.isLt (by norm_num)
  constructor
  · exact clip_of_orthonormal _
      (setEulerAngles_homogeneous Real.cos Real.sin mm omega phi kappa)
      (setEulerAngles_columns Real.cos Real.sin mm omega phi kappa
        (Real.sin_sq_add_cos_sq omega) (Real.sin_sq_add_cos_sq phi)
        (Real.sin_sq_add_cos_sq kappa))
      _ _ _ hx hy hz z1 z2 pm cm i
  · exact clip_of_orthonormal
      (setEulerAngles Real.cos Real.sin autos.modelMat
        (renderFrame d Real.cos Real.sin Real.pi autos st w).1.omega
        (renderFrame d Real.cos Real.sin Real.pi autos st w).1.phi
        (renderFrame d Real.cos Real.sin Real.pi autos st w).1.kappa)
      (setEulerAngles_homogeneous Real.cos Real.sin _ _ _ _)
      (setEulerAngles_columns Real.cos Real.sin _ _ _ _
        (Real.sin_sq_add_cos_sq _) (Real.sin_sq_add_cos_sq _) (Real.sin_sq_add_cos_sq _))
      _ _ _ hx hy hz st.mvp autos.modelCam autos.projMat autos.cameraMat i


end HelloGL2Cubed
